import Mathlib

/-!
Verification of the filesystem JS bridge (`src/FileSystemJsObject.cpp`).

The file shallowly embeds the six operation dispatchers (`ReadCallback`,
`ReadFromFileCallback`, `WriteCallback`, `MoveCallback`, `RemoveCallback`,
`StatCallback`) and their asynchronous completion handlers as pure Lean
functions, and proves properties about argument validation, callback
invocation discipline, the line-splitting loop of the streaming read, and
the shape of the result objects delivered to script callbacks.

Modelling conventions:
* a script value (`v8::Value` after `ConvertArguments`) is a `JsVal`;
* a byte buffer (`IFileSystem::IOBuffer` / `StringBuffer`) is a `List Nat`;
* the native error string is a `String`, empty meaning success, exactly as
  the C++ tests `!error.empty()`;
* `engineAlive : Bool` models whether `weakJsEngine.lock()` succeeds in the
  completion handler;
* a completion handler returns the sequence of script-callback invocations
  it performs (for one-callback operations, `Option` of the arguments of
  the single call; for the streaming read, a list of `RffEvent`s).
-/

namespace FileSystemJsObject

/-- A script value as seen after `JsEngine::ConvertArguments`: a string,
a buffer, a function handle (identified by an opaque id), or anything
else. -/
inductive JsVal where
  | str (s : String)
  | buf (b : List Nat)
  | func (id : Nat)
  | other
deriving DecidableEq, Repr

/-- Mirror of `JsValue::IsFunction`: true exactly on function handles. -/
def JsVal.IsFunction : JsVal → Bool
  | .func _ => true
  | _ => false

/-- Outcome of running one dispatcher body synchronously: the exception
message thrown into JS (if any), the callback handles stored in the
registry by `StoreJsValues`, and whether work was submitted to the
filesystem service via `WithFileSystem`. -/
structure DispatchOutcome where
  thrown : Option String
  stored : List JsVal
  submitted : Bool
deriving DecidableEq, Repr

/-- Mirror of `ReadCallback` (dispatch part, lines 35-51): arity 2, second
argument must be a function; on success stores that callback and submits a
`Read` request. -/
def ReadDispatch (converted : List JsVal) : DispatchOutcome :=
  if converted.length ≠ 2 then
    ⟨some "_fileSystem.read requires 2 parameters", [], false⟩
  else if (converted.getD 1 .other).IsFunction = false then
    ⟨some "Second argument to _fileSystem.read must be a function", [], false⟩
  else
    ⟨none, [converted.getD 1 .other], true⟩

/-- Mirror of `ReadFromFileCallback` (dispatch part, lines 91-110): arity 3,
second and third arguments must be functions; on success stores the
listener and done callbacks (in that order) and submits a `Read` request. -/
def ReadFromFileDispatch (converted : List JsVal) : DispatchOutcome :=
  if converted.length ≠ 3 then
    ⟨some "_fileSystem.readFromFile requires 3 parameters", [], false⟩
  else if (converted.getD 1 .other).IsFunction = false then
    ⟨some "Second argument to _fileSystem.readFromFile must be a function (listener callback)", [], false⟩
  else if (converted.getD 2 .other).IsFunction = false then
    ⟨some "Third argument to _fileSystem.readFromFile must be a function (done callback)", [], false⟩
  else
    ⟨none, [converted.getD 1 .other, converted.getD 2 .other], true⟩

/-- Mirror of `WriteCallback` (dispatch part, lines 157-174): arity 3, third
argument must be a function; on success stores that callback and submits a
`Write` request. -/
def WriteDispatch (converted : List JsVal) : DispatchOutcome :=
  if converted.length ≠ 3 then
    ⟨some "_fileSystem.write requires 3 parameters", [], false⟩
  else if (converted.getD 2 .other).IsFunction = false then
    ⟨some "Third argument to _fileSystem.write must be a function", [], false⟩
  else
    ⟨none, [converted.getD 2 .other], true⟩

/-- Mirror of `MoveCallback` (dispatch part, lines 193-210): arity 3, third
argument must be a function; on success stores that callback and submits a
`Move` request. -/
def MoveDispatch (converted : List JsVal) : DispatchOutcome :=
  if converted.length ≠ 3 then
    ⟨some "_fileSystem.move requires 3 parameters", [], false⟩
  else if (converted.getD 2 .other).IsFunction = false then
    ⟨some "Third argument to _fileSystem.move must be a function", [], false⟩
  else
    ⟨none, [converted.getD 2 .other], true⟩

/-- Mirror of `RemoveCallback` (dispatch part, lines 229-245): arity 2,
second argument must be a function; on success stores that callback and
submits a `Remove` request. -/
def RemoveDispatch (converted : List JsVal) : DispatchOutcome :=
  if converted.length ≠ 2 then
    ⟨some "_fileSystem.remove requires 2 parameters", [], false⟩
  else if (converted.getD 1 .other).IsFunction = false then
    ⟨some "Second argument to _fileSystem.remove must be a function", [], false⟩
  else
    ⟨none, [converted.getD 1 .other], true⟩

/-- Mirror of `StatCallback` (dispatch part, lines 264-280): arity 2, second
argument must be a function; on success stores that callback and submits a
`Stat` request. -/
def StatDispatch (converted : List JsVal) : DispatchOutcome :=
  if converted.length ≠ 2 then
    ⟨some "_fileSystem.stat requires 2 parameters", [], false⟩
  else if (converted.getD 1 .other).IsFunction = false then
    ⟨some "Second argument to _fileSystem.stat must be a function", [], false⟩
  else
    ⟨none, [converted.getD 1 .other], true⟩

/-- Result object built by the `read` completion handler (lines 62-67): a
`content` property is always set from the delivered buffer, and an `error`
property is set iff the native error string is non-empty. -/
structure ReadResultObj where
  content : List Nat
  error : Option String
deriving DecidableEq, Repr

/-- Mirror of the `read` completion handler (lines 55-68). `none` means the
engine was gone and no script callback was invoked; `some r` means the
stored callback was invoked exactly once, with result object `r`. -/
def readOnDone (engineAlive : Bool) (content : List Nat) (error : String) :
    Option ReadResultObj :=
  if engineAlive = false then
    none
  else
    some ⟨content, if error = "" then none else some error⟩

/-- Native stat payload, mirror of `IFileSystem::StatResult` as used by
`StatCallback`. -/
structure StatResult where
  exists_ : Bool
  lastModified : Int
deriving DecidableEq, Repr

/-- Result object built by the `stat` completion handler (lines 291-301):
`exists` and `lastModified` properties are always copied from the native
result, and an `error` property is set iff the native error string is
non-empty. -/
structure StatResultObj where
  exists_ : Bool
  lastModified : Int
  error : Option String
deriving DecidableEq, Repr

/-- Mirror of the `stat` completion handler (lines 284-302). `none` means
the engine was gone and no script callback was invoked; `some r` means the
stored callback was invoked exactly once, with result object `r`. -/
def statOnDone (engineAlive : Bool) (statResult : StatResult) (error : String) :
    Option StatResultObj :=
  if engineAlive = false then
    none
  else
    some ⟨statResult.exists_, statResult.lastModified,
          if error = "" then none else some error⟩

/-- Mirror of the `write` completion handler (lines 178-189). `none` means
the engine was gone and no script callback was invoked; `some params` means
the stored callback was invoked exactly once with argument list `params`
(empty on success, the error description alone on failure). -/
def writeOnDone (engineAlive : Bool) (error : String) : Option (List String) :=
  if engineAlive = false then
    none
  else
    some (if error = "" then [] else [error])

/-- Mirror of the `move` completion handler (lines 214-225), with the same
reading as `writeOnDone`. -/
def moveOnDone (engineAlive : Bool) (error : String) : Option (List String) :=
  if engineAlive = false then
    none
  else
    some (if error = "" then [] else [error])

/-- Mirror of the `remove` completion handler (lines 249-260), with the same
reading as `writeOnDone`. -/
def removeOnDone (engineAlive : Bool) (error : String) : Option (List String) :=
  if engineAlive = false then
    none
  else
    some (if error = "" then [] else [error])

/-- Mirror of `IsEndOfLine` (line 72): a byte is a line terminator iff it is
LF (10) or CR (13). -/
def isEndOfLine (c : Nat) : Bool :=
  c == 10 || c == 13

/-- Mirror of `SkipEndOfLine` (lines 77-82): drop the leading run of line
terminator bytes. -/
def skipEndOfLine : List Nat → List Nat
  | [] => []
  | c :: rest => if isEndOfLine c then skipEndOfLine rest else c :: rest

/-- One script-callback invocation performed by the `readFromFile`
completion handler: either the per-line listener called with one line's
bytes, or the done callback called with no argument (`done none`) or with
an error string (`done (some e)`). -/
inductive RffEvent where
  | line (s : List Nat)
  | done (err : Option String)
deriving DecidableEq, Repr

/-- Byte-for-byte transcription of the line loop of `ReadFromFileCallback`
(lines 138-152). The do-while loop is modelled as a scanner over the
remaining bytes: state `some acc` means a line is being accumulated (`acc`
holds its bytes in reverse, matching the `stringBegin`/`stringEnd` iterator
pair), state `none` means the loop has just finished a line successfully
and is inside `SkipEndOfLine` before re-testing `stringBegin != contentEnd`.
`lineCb l` is the behaviour of the per-line script callback on line `l`:
`none` for a normal return, `some e` when it throws an exception whose
description (`JsError::ExceptionToString`) is `e`. -/
def rffStep (lineCb : List Nat → Option String) :
    Option (List Nat) → List Nat → List RffEvent
  | some acc, [] =>
      RffEvent.line acc.reverse ::
        (match lineCb acc.reverse with
         | some e => [RffEvent.done (some e)]
         | none => [RffEvent.done none])
  | some acc, c :: rest =>
      if isEndOfLine c then
        RffEvent.line acc.reverse ::
          (match lineCb acc.reverse with
           | some e => [RffEvent.done (some e)]
           | none => rffStep lineCb none rest)
      else
        rffStep lineCb (some (c :: acc)) rest
  | none, [] => [RffEvent.done none]
  | none, c :: rest =>
      if isEndOfLine c then
        rffStep lineCb none rest
      else
        rffStep lineCb (some [c]) rest

/-- Mirror of the `readFromFile` completion handler (lines 114-153): if the
engine is gone, nothing happens; if the native error string is non-empty,
the done callback is called once with it; otherwise the line loop runs,
starting from `SkipEndOfLine(content.begin(), contentEnd)`. Returns the
sequence of script-callback invocations performed. -/
def readFromFileOnDone (engineAlive : Bool) (lineCb : List Nat → Option String)
    (content : List Nat) (error : String) : List RffEvent :=
  if engineAlive = false then
    []
  else if error = "" then
    rffStep lineCb (some []) (skipEndOfLine content)
  else
    [RffEvent.done (some error)]

/-- Number of per-line listener invocations in a trace. -/
def rffLineCount : List RffEvent → Nat
  | [] => 0
  | RffEvent.line _ :: tr => rffLineCount tr + 1
  | RffEvent.done _ :: tr => rffLineCount tr

/-- Number of done-callback invocations in a trace. -/
def rffDoneCount : List RffEvent → Nat
  | [] => 0
  | RffEvent.line _ :: tr => rffDoneCount tr
  | RffEvent.done _ :: tr => rffDoneCount tr + 1

/-- Skipping a buffer made only of line terminators reaches the end. -/
lemma skipEndOfLine_all_eol (content : List Nat)
    (h : content.all isEndOfLine = true) : skipEndOfLine content = [] := by
  induction content with
  | nil => rfl
  | cons c rest ih =>
    simp only [List.all_cons, Bool.and_eq_true] at h
    simp [skipEndOfLine, h.1, ih h.2]

/-- Skipping does nothing on a buffer that starts with an ordinary byte. -/
lemma skipEndOfLine_cons_of_not_eol {c : Nat} {s : List Nat}
    (h : isEndOfLine c = false) : skipEndOfLine (c :: s) = c :: s := by
  simp [skipEndOfLine, h]

/-- Scanning a terminator-free prefix accumulates it into the current line
(in reverse) and continues with the remainder. -/
lemma rffStep_scan (lineCb : List Nat → Option String) (l : List Nat) :
    ∀ (acc rest : List Nat), (∀ c ∈ l, isEndOfLine c = false) →
      rffStep lineCb (some acc) (l ++ rest) =
        rffStep lineCb (some (l.reverse ++ acc)) rest := by
  induction l with
  | nil => intro acc rest _; simp
  | cons c l' ih =>
    intro acc rest h
    have hc : isEndOfLine c = false := h c (List.mem_cons_self c l')
    have h' : ∀ x ∈ l', isEndOfLine x = false :=
      fun x hx => h x (List.mem_cons_of_mem c hx)
    rw [List.cons_append]
    rw [show rffStep lineCb (some acc) (c :: (l' ++ rest)) =
          rffStep lineCb (some (c :: acc)) (l' ++ rest) by simp [rffStep, hc]]
    rw [ih (c :: acc) rest h']
    simp

/-- Whatever the buffer and the listener behaviour, the line loop invokes
the done callback exactly once. -/
lemma rffStep_done_once (lineCb : List Nat → Option String) :
    ∀ (s : List Nat) (st : Option (List Nat)),
      rffDoneCount (rffStep lineCb st s) = 1 := by
  intro s
  induction s with
  | nil =>
    intro st
    cases st with
    | none => simp [rffStep, rffDoneCount]
    | some acc =>
      cases hcb : lineCb acc.reverse <;> simp [rffStep, rffDoneCount, hcb]
  | cons c rest ih =>
    intro st
    cases st with
    | none =>
      cases hc : isEndOfLine c <;> simp [rffStep, rffDoneCount, hc, ih]
    | some acc =>
      cases hc : isEndOfLine c
      · simp [rffStep, rffDoneCount, hc, ih]
      · cases hcb : lineCb acc.reverse <;>
          simp [rffStep, rffDoneCount, hc, hcb, ih]

/-- C1 (counterexample): the claim that no callback handle is ever invoked
more than once per logical operation is false for the streaming read. With
a well-formed argument list (the dispatcher throws nothing) and the engine
alive, the two-line buffer "a\nb" makes the completion handler invoke the
per-line listener handle twice within one logical operation. -/
theorem readFromFile_listener_invoked_twice :
    (ReadFromFileDispatch [JsVal.str "f", JsVal.func 0, JsVal.func 1]).thrown = none ∧
    ¬ rffLineCount (readFromFileOnDone true (fun _ => none) [97, 10, 98] "") ≤ 1 := by
  decide

/-- C1 (amended): for every operation whose completion handler runs with
the engine alive, the single result/completion callback of the operation is
invoked exactly once — never zero times and never twice — whatever the
native payload, error string, and per-line listener behaviour; the
streaming per-line listener, by contrast, is invoked once per emitted
line. -/
theorem completion_callback_exactly_once (content : List Nat) (error : String)
    (statResult : StatResult) (lineCb : List Nat → Option String) :
    (readOnDone true content error).isSome = true ∧
    (statOnDone true statResult error).isSome = true ∧
    (writeOnDone true error).isSome = true ∧
    (moveOnDone true error).isSome = true ∧
    (removeOnDone true error).isSome = true ∧
    rffDoneCount (readFromFileOnDone true lineCb content error) = 1 := by
  refine ⟨rfl, rfl, rfl, rfl, rfl, ?_⟩
  by_cases he : error = ""
  · simp [readFromFileOnDone, he, rffStep_done_once]
  · simp [readFromFileOnDone, he, rffDoneCount]

/-- C2 (counterexample): the claim that an empty buffer yields zero
per-line invocations is false: the line loop is a do-while, so on the empty
buffer the per-line listener is invoked once (with the empty line). -/
theorem rff_empty_buffer_invokes_listener :
    ¬ rffLineCount (readFromFileOnDone true (fun _ => none) [] "") = 0 := by
  decide

/-- C2 (amended): on a buffer that is empty or consists solely of line
terminators, the streaming-read completion handler invokes the per-line
listener exactly once, with the empty line, and then the completion
callback exactly once — with no error if the listener returns normally,
with the exception description if it throws. -/
theorem rff_terminator_only_buffer (lineCb : List Nat → Option String)
    (content : List Nat) (h : content.all isEndOfLine = true) :
    readFromFileOnDone true lineCb content "" =
      RffEvent.line [] ::
        (match lineCb [] with
         | some e => [RffEvent.done (some e)]
         | none => [RffEvent.done none]) := by
  simp [readFromFileOnDone, skipEndOfLine_all_eol content h, rffStep]

/-- Witness for the amended C2: the all-terminator buffer CR LF CR with a
listener that returns normally gives exactly one (empty) line invocation
followed by a no-error completion. -/
theorem rff_terminator_only_buffer_witness :
    ([13, 10, 13] : List Nat).all isEndOfLine = true ∧
    readFromFileOnDone true (fun _ => none) [13, 10, 13] "" =
      [RffEvent.line [], RffEvent.done none] := by
  refine ⟨by decide, ?_⟩
  have h := rff_terminator_only_buffer (fun _ => none) [13, 10, 13] (by decide)
  simpa using h

/-- C3: on the buffer "a\nb\n\nc" (bytes 97 10 98 10 10 99), with a
per-line listener that returns normally on "a", "b" and "c", the streaming
read invokes the listener exactly three times, in order with lines "a",
"b", "c" — the empty line inside the terminator run is collapsed — and
then the completion callback once with no error. -/
theorem rff_three_lines (lineCb : List Nat → Option String)
    (h1 : lineCb [97] = none) (h2 : lineCb [98] = none)
    (h3 : lineCb [99] = none) :
    readFromFileOnDone true lineCb [97, 10, 98, 10, 10, 99] "" =
      [RffEvent.line [97], RffEvent.line [98], RffEvent.line [99],
       RffEvent.done none] := by
  simp [readFromFileOnDone, skipEndOfLine, rffStep, isEndOfLine, h1, h2, h3]

/-- Witness for C3 with the always-normal listener. -/
theorem rff_three_lines_witness :
    readFromFileOnDone true (fun _ => none) [97, 10, 98, 10, 10, 99] "" =
      [RffEvent.line [97], RffEvent.line [98], RffEvent.line [99],
       RffEvent.done none] :=
  rff_three_lines (fun _ => none) rfl rfl rfl

/-- C5: when the weak engine reference fails to resolve, every completion
handler returns immediately: no callback of any operation is invoked and no
event is produced, for every payload, error string and listener behaviour. -/
theorem engine_dead_no_invocation (content : List Nat) (error : String)
    (statResult : StatResult) (lineCb : List Nat → Option String) :
    readOnDone false content error = none ∧
    statOnDone false statResult error = none ∧
    writeOnDone false error = none ∧
    moveOnDone false error = none ∧
    removeOnDone false error = none ∧
    readFromFileOnDone false lineCb content error = [] :=
  ⟨rfl, rfl, rfl, rfl, rfl, rfl⟩

/-- C4: on a buffer of at least three lines (two terminator-free non-empty
lines `l1`, `l2` followed by a remainder containing a further non-terminator
byte), if the per-line listener returns normally on `l1` and throws on `l2`
with a non-empty exception description `e`, then the streaming read invokes
the listener exactly twice (with `l1` then `l2`), invokes the completion
callback exactly once with error `e`, and performs no third listener
invocation: the trace is exactly `[line l1, line l2, done e]`. -/
theorem rff_fault_on_second_line (lineCb : List Nat → Option String)
    (l1 l2 rest : List Nat) (e : String)
    (hl1 : l1 ≠ []) (hl1e : ∀ c ∈ l1, isEndOfLine c = false)
    (hl2 : l2 ≠ []) (hl2e : ∀ c ∈ l2, isEndOfLine c = false)
    (_hthird : ∃ c ∈ rest, isEndOfLine c = false)
    (hcb1 : lineCb l1 = none) (hcb2 : lineCb l2 = some e) (_he : e ≠ "") :
    readFromFileOnDone true lineCb (l1 ++ 10 :: (l2 ++ 10 :: rest)) "" =
      [RffEvent.line l1, RffEvent.line l2, RffEvent.done (some e)] ∧
    rffLineCount (readFromFileOnDone true lineCb (l1 ++ 10 :: (l2 ++ 10 :: rest)) "") = 2 ∧
    rffDoneCount (readFromFileOnDone true lineCb (l1 ++ 10 :: (l2 ++ 10 :: rest)) "") = 1 := by
  obtain ⟨c1, l1', rfl⟩ : ∃ c t, l1 = c :: t := by
    cases l1 with
    | nil => exact absurd rfl hl1
    | cons c t => exact ⟨c, t, rfl⟩
  obtain ⟨c2, l2', rfl⟩ : ∃ c t, l2 = c :: t := by
    cases l2 with
    | nil => exact absurd rfl hl2
    | cons c t => exact ⟨c, t, rfl⟩
  have hc1 : isEndOfLine c1 = false := hl1e c1 (List.mem_cons_self c1 l1')
  have hc2 : isEndOfLine c2 = false := hl2e c2 (List.mem_cons_self c2 l2')
  have key : readFromFileOnDone true lineCb
      ((c1 :: l1') ++ 10 :: ((c2 :: l2') ++ 10 :: rest)) "" =
      [RffEvent.line (c1 :: l1'), RffEvent.line (c2 :: l2'),
       RffEvent.done (some e)] := by
    calc readFromFileOnDone true lineCb
          ((c1 :: l1') ++ 10 :: ((c2 :: l2') ++ 10 :: rest)) ""
        = rffStep lineCb (some [])
            ((c1 :: l1') ++ 10 :: ((c2 :: l2') ++ 10 :: rest)) := by
          simp [readFromFileOnDone, skipEndOfLine_cons_of_not_eol hc1]
      _ = rffStep lineCb (some ((c1 :: l1').reverse ++ []))
            (10 :: ((c2 :: l2') ++ 10 :: rest)) :=
          rffStep_scan lineCb (c1 :: l1') [] _ hl1e
      _ = RffEvent.line (c1 :: l1') ::
            rffStep lineCb none ((c2 :: l2') ++ 10 :: rest) := by
          simp [rffStep, isEndOfLine, hcb1]
      _ = RffEvent.line (c1 :: l1') ::
            rffStep lineCb (some [c2]) (l2' ++ 10 :: rest) := by
          rw [List.cons_append]
          simp [rffStep, hc2]
      _ = RffEvent.line (c1 :: l1') ::
            rffStep lineCb (some (l2'.reverse ++ [c2])) (10 :: rest) := by
          rw [rffStep_scan lineCb l2' [c2] _
            (fun c hc => hl2e c (List.mem_cons_of_mem c2 hc))]
      _ = [RffEvent.line (c1 :: l1'), RffEvent.line (c2 :: l2'),
           RffEvent.done (some e)] := by
          simp [rffStep, isEndOfLine, hcb2]
  refine ⟨key, ?_, ?_⟩
  · rw [key]; rfl
  · rw [key]; rfl

/-- Witness for C4: buffer "a\nb\nc" with a listener that throws "boom" on
line "b" gives the trace line "a", line "b", done "boom". -/
theorem rff_fault_on_second_line_witness :
    readFromFileOnDone true (fun l => if l = [98] then some "boom" else none)
        ([97] ++ 10 :: ([98] ++ 10 :: [99])) "" =
      [RffEvent.line [97], RffEvent.line [98], RffEvent.done (some "boom")] ∧
    rffLineCount (readFromFileOnDone true
        (fun l => if l = [98] then some "boom" else none)
        ([97] ++ 10 :: ([98] ++ 10 :: [99])) "") = 2 ∧
    rffDoneCount (readFromFileOnDone true
        (fun l => if l = [98] then some "boom" else none)
        ([97] ++ 10 :: ([98] ++ 10 :: [99])) "") = 1 :=
  rff_fault_on_second_line (fun l => if l = [98] then some "boom" else none)
    [97] [98] [99] "boom" (by decide) (by decide) (by decide) (by decide)
    ⟨99, by decide⟩ (by decide) (by decide) (by decide)

/-- C6: for each of the six dispatchers, a malformed argument list — wrong
argument count for the operation's fixed arity, or a non-function value at
a required callback position — makes the dispatcher throw a synchronous
script exception, store no callback handle and submit no filesystem work. -/
theorem malformed_args_throw_without_side_effects (args : List JsVal) :
    ((args.length ≠ 2 ∨ (args.getD 1 .other).IsFunction = false) →
      (ReadDispatch args).thrown.isSome = true ∧
      (ReadDispatch args).stored = [] ∧
      (ReadDispatch args).submitted = false) ∧
    ((args.length ≠ 3 ∨ (args.getD 1 .other).IsFunction = false ∨
        (args.getD 2 .other).IsFunction = false) →
      (ReadFromFileDispatch args).thrown.isSome = true ∧
      (ReadFromFileDispatch args).stored = [] ∧
      (ReadFromFileDispatch args).submitted = false) ∧
    ((args.length ≠ 3 ∨ (args.getD 2 .other).IsFunction = false) →
      (WriteDispatch args).thrown.isSome = true ∧
      (WriteDispatch args).stored = [] ∧
      (WriteDispatch args).submitted = false) ∧
    ((args.length ≠ 3 ∨ (args.getD 2 .other).IsFunction = false) →
      (MoveDispatch args).thrown.isSome = true ∧
      (MoveDispatch args).stored = [] ∧
      (MoveDispatch args).submitted = false) ∧
    ((args.length ≠ 2 ∨ (args.getD 1 .other).IsFunction = false) →
      (RemoveDispatch args).thrown.isSome = true ∧
      (RemoveDispatch args).stored = [] ∧
      (RemoveDispatch args).submitted = false) ∧
    ((args.length ≠ 2 ∨ (args.getD 1 .other).IsFunction = false) →
      (StatDispatch args).thrown.isSome = true ∧
      (StatDispatch args).stored = [] ∧
      (StatDispatch args).submitted = false) := by
  refine ⟨?_, ?_, ?_, ?_, ?_, ?_⟩
  · intro h
    by_cases hl : args.length = 2
    · rcases h with h | h
      · exact absurd hl h
      · unfold ReadDispatch
        rw [if_neg (not_not_intro hl), if_pos h]
        exact ⟨rfl, rfl, rfl⟩
    · unfold ReadDispatch
      rw [if_pos hl]
      exact ⟨rfl, rfl, rfl⟩
  · intro h
    by_cases hl : args.length = 3
    · by_cases h1 : (args.getD 1 .other).IsFunction = false
      · unfold ReadFromFileDispatch
        rw [if_neg (not_not_intro hl), if_pos h1]
        exact ⟨rfl, rfl, rfl⟩
      · rcases h with h | h | h
        · exact absurd hl h
        · exact absurd h h1
        · unfold ReadFromFileDispatch
          rw [if_neg (not_not_intro hl), if_neg h1, if_pos h]
          exact ⟨rfl, rfl, rfl⟩
    · unfold ReadFromFileDispatch
      rw [if_pos hl]
      exact ⟨rfl, rfl, rfl⟩
  · intro h
    by_cases hl : args.length = 3
    · rcases h with h | h
      · exact absurd hl h
      · unfold WriteDispatch
        rw [if_neg (not_not_intro hl), if_pos h]
        exact ⟨rfl, rfl, rfl⟩
    · unfold WriteDispatch
      rw [if_pos hl]
      exact ⟨rfl, rfl, rfl⟩
  · intro h
    by_cases hl : args.length = 3
    · rcases h with h | h
      · exact absurd hl h
      · unfold MoveDispatch
        rw [if_neg (not_not_intro hl), if_pos h]
        exact ⟨rfl, rfl, rfl⟩
    · unfold MoveDispatch
      rw [if_pos hl]
      exact ⟨rfl, rfl, rfl⟩
  · intro h
    by_cases hl : args.length = 2
    · rcases h with h | h
      · exact absurd hl h
      · unfold RemoveDispatch
        rw [if_neg (not_not_intro hl), if_pos h]
        exact ⟨rfl, rfl, rfl⟩
    · unfold RemoveDispatch
      rw [if_pos hl]
      exact ⟨rfl, rfl, rfl⟩
  · intro h
    by_cases hl : args.length = 2
    · rcases h with h | h
      · exact absurd hl h
      · unfold StatDispatch
        rw [if_neg (not_not_intro hl), if_pos h]
        exact ⟨rfl, rfl, rfl⟩
    · unfold StatDispatch
      rw [if_pos hl]
      exact ⟨rfl, rfl, rfl⟩

/-- Witness for C6: the empty argument list is malformed for every
operation, so every dispatcher throws without storing or submitting. -/
theorem malformed_args_throw_without_side_effects_witness :
    ((ReadDispatch []).thrown.isSome = true ∧
      (ReadDispatch []).stored = [] ∧ (ReadDispatch []).submitted = false) ∧
    ((ReadFromFileDispatch []).thrown.isSome = true ∧
      (ReadFromFileDispatch []).stored = [] ∧
      (ReadFromFileDispatch []).submitted = false) ∧
    ((WriteDispatch []).thrown.isSome = true ∧
      (WriteDispatch []).stored = [] ∧ (WriteDispatch []).submitted = false) ∧
    ((MoveDispatch []).thrown.isSome = true ∧
      (MoveDispatch []).stored = [] ∧ (MoveDispatch []).submitted = false) ∧
    ((RemoveDispatch []).thrown.isSome = true ∧
      (RemoveDispatch []).stored = [] ∧ (RemoveDispatch []).submitted = false) ∧
    ((StatDispatch []).thrown.isSome = true ∧
      (StatDispatch []).stored = [] ∧ (StatDispatch []).submitted = false) :=
  ⟨(malformed_args_throw_without_side_effects []).1 (Or.inl (by decide)),
   (malformed_args_throw_without_side_effects []).2.1 (Or.inl (by decide)),
   (malformed_args_throw_without_side_effects []).2.2.1 (Or.inl (by decide)),
   (malformed_args_throw_without_side_effects []).2.2.2.1 (Or.inl (by decide)),
   (malformed_args_throw_without_side_effects []).2.2.2.2.1 (Or.inl (by decide)),
   (malformed_args_throw_without_side_effects []).2.2.2.2.2 (Or.inl (by decide))⟩

/-- C7: when the native read reports a non-empty error string, the
streaming-read completion handler invokes the completion callback exactly
once with that error string as its sole argument, and the per-line listener
is never invoked. -/
theorem rff_native_error_skips_lines (lineCb : List Nat → Option String)
    (content : List Nat) (error : String) (h : error ≠ "") :
    readFromFileOnDone true lineCb content error =
      [RffEvent.done (some error)] ∧
    rffLineCount (readFromFileOnDone true lineCb content error) = 0 := by
  have key : readFromFileOnDone true lineCb content error =
      [RffEvent.done (some error)] := by
    simp [readFromFileOnDone, h]
  exact ⟨key, by rw [key]; rfl⟩

/-- Witness for C7 at the error string "disk failure". -/
theorem rff_native_error_skips_lines_witness :
    readFromFileOnDone true (fun _ => none) [97, 10, 98] "disk failure" =
      [RffEvent.done (some "disk failure")] ∧
    rffLineCount (readFromFileOnDone true (fun _ => none) [97, 10, 98]
      "disk failure") = 0 :=
  rff_native_error_skips_lines (fun _ => none) [97, 10, 98] "disk failure"
    (by decide)

/-- C8: the write, move and remove completion handlers invoke their stored
callback with zero arguments when the native error string is empty, and
with the error description as the single argument when it is non-empty. -/
theorem fire_and_forget_argument_convention (error : String) :
    writeOnDone true error = some (if error = "" then [] else [error]) ∧
    moveOnDone true error = some (if error = "" then [] else [error]) ∧
    removeOnDone true error = some (if error = "" then [] else [error]) :=
  ⟨rfl, rfl, rfl⟩

/-- C9: the read and stat result objects carry an `error` property exactly
when the native error string is non-empty; in particular a stat completion
with `exists = false` and an empty error yields a result with
`exists = false` and no `error` property. -/
theorem result_error_field_iff_native_error (content : List Nat)
    (error : String) (statResult : StatResult) (t : Int) :
    readOnDone true content error =
      some ⟨content, if error = "" then none else some error⟩ ∧
    statOnDone true statResult error =
      some ⟨statResult.exists_, statResult.lastModified,
            if error = "" then none else some error⟩ ∧
    statOnDone true ⟨false, t⟩ "" = some ⟨false, t, none⟩ :=
  ⟨rfl, rfl, rfl⟩

/-- C10: whatever the native error string, the read result object always
carries the delivered buffer as its `content`, and the stat result object
always carries `exists` and `lastModified` copied from the native stat
payload. -/
theorem success_payload_always_present (content : List Nat) (error : String)
    (statResult : StatResult) :
    (∃ r, readOnDone true content error = some r ∧ r.content = content) ∧
    (∃ r, statOnDone true statResult error = some r ∧
      r.exists_ = statResult.exists_ ∧
      r.lastModified = statResult.lastModified) :=
  ⟨⟨⟨content, if error = "" then none else some error⟩, rfl, rfl⟩,
   ⟨⟨statResult.exists_, statResult.lastModified,
     if error = "" then none else some error⟩, rfl, rfl, rfl⟩⟩

end FileSystemJsObject
